import Mathlib

/-!
Verification development for the COMPASS hook-handler repository.

The definitions below are a shallow embedding of the Python source
(`src/claude/handlers/compass-handler.py` and
`src/compass/utils/file_organization.py`) into Lean.  Python values are
modelled as follows:

* `pathlib.Path` values are modelled by `PyPath`: an absolute flag plus the
  list of name components (the components are assumed already normalised,
  as `pathlib` normalisation produces them).
* JSON documents are modelled by the inductive `Json`; JSON numbers are
  modelled as integers (every number appearing in the state
  files is an integer).  A file on disk is an `RawFile`: a byte size plus
  `Option Json` (`none` models content that fails to parse).
* ISO timestamps are modelled as decimal strings of an integer second
  count (`isoStr`), and `datetime.now()` as an integer parameter `now`.
* Python exceptions are modelled with `Except PyErr`; a `try/except`
  becomes a `match` on the `Except` value.
* binary64 floating point (used only by `estimate_agent_tokens`) is
  modelled exactly: a float is the dyadic rational it denotes, and each
  arithmetic operation rounds its exact rational result to 53 significant
  bits with round-to-nearest, ties-to-even (`roundDyadic`), which is the
  IEEE-754 semantics of the Python operations on the magnitudes involved
  (no overflow or subnormals are reachable).
-/

namespace Compass

/-! ## Paths (`pathlib.Path` model) -/

/-- A filesystem path: `absolute` models a leading `/`, `parts` the name
components (`pathlib.PurePath.parts` without the root anchor). -/
structure PyPath where
  absolute : Bool
  parts : List String
deriving DecidableEq, Repr

/-- Model of `str(path)` for a `PyPath` (components joined by `/`, with a leading
`/` when absolute). -/
def pathStr (p : PyPath) : String :=
  (if p.absolute then "/" else "") ++ String.intercalate "/" p.parts

/-- Model of `Path(filepath).name`: the final component (empty for an empty path). -/
def pathName (p : PyPath) : String :=
  (p.parts.getLast?).getD ""

/-- Joining `path / sub` for a relative `sub`: concatenation of components. -/
def pathJoin (root : PyPath) (p : PyPath) : PyPath :=
  { absolute := root.absolute, parts := root.parts ++ p.parts }

/-- Model of `s.startswith(p)` (list-based, so that it reduces in the kernel). -/
def strStartsWith (s p : String) : Bool := p.data.isPrefixOf s.data

/-- Model of `s.endswith(p)`. -/
def strEndsWith (s p : String) : Bool := p.data.isSuffixOf s.data

/-- Model of `s.lower()`. -/
def strLower (s : String) : String := String.mk (s.data.map Char.toLower)

/-- Model of the slice `s[:n]`. -/
def strTake (s : String) (n : Nat) : String := String.mk (s.data.take n)

/-! ## `CompassFileOrganizer` (src/compass/utils/file_organization.py)

The organizer is parameterised by the project root (in the source,
`Path(project_root or os.getcwd())`, always an absolute path).  The
`_ensure_directories` side effect only creates directories and is elided. -/

/-- Method `CompassFileOrganizer.validate_path_safety`: `True` when the path is
safe, `False` when it would write directly into the project root
(zero intermediate directories).  Mirrors the source exactly: an absolute
path whose string form does not start with `str(project_root)` is safe;
otherwise the (resolved) path is compared against the root with
`Path.relative_to`, whose `ValueError` branch (root not a component
prefix) yields safe. -/
def validate_path_safety (root : PyPath) (filepath : PyPath) : Bool :=
  if filepath.absolute ∧ ¬ strStartsWith (pathStr filepath) (pathStr root) then
    true
  else
    let path := if filepath.absolute then filepath else pathJoin root filepath
    if root.parts.isPrefixOf path.parts then
      -- relative_to succeeds; safe iff more than one component remains
      decide (path.parts.length - root.parts.length > 1)
    else
      -- Path.relative_to raises ValueError: path outside project root
      true

/-- Method `CompassFileOrganizer.get_documentation_path` (category `general`):
`docs/<filename>` under the project root, appending `.md` when missing. -/
def get_documentation_path (root : PyPath) (filename : String) : PyPath :=
  let fn := if strEndsWith filename ".md" then filename else filename ++ ".md"
  { absolute := root.absolute, parts := root.parts ++ ["docs", fn] }

/-- Method `CompassFileOrganizer.get_documentation_path` with category
`validations`: `docs/validations/<filename>`. -/
def get_validation_doc_path (root : PyPath) (filename : String) : PyPath :=
  let fn := if strEndsWith filename ".md" then filename else filename ++ ".md"
  { absolute := root.absolute, parts := root.parts ++ ["docs", "validations", fn] }

/-- Method `CompassFileOrganizer.get_test_path`: `.compass/tests/<filename>`. -/
def get_test_path (root : PyPath) (filename : String) : PyPath :=
  let fn := if strEndsWith filename ".md" then filename else filename ++ ".md"
  { absolute := root.absolute, parts := root.parts ++ [".compass", "tests", fn] }

/-- Substring test on character lists (used to model the Python `in` operator on
strings). -/
def listContainsSub [DecidableEq α] : List α → List α → Bool
  | _, [] => true
  | [], _ :: _ => false
  | a :: hay, pat =>
    pat.isPrefixOf (a :: hay) || listContainsSub hay pat

/-- Python `pat in s` for strings. -/
def strContains (s pat : String) : Bool :=
  listContainsSub s.data pat.data

/-! ## `validate_file_operation_safety` (compass-handler.py)

Tool input for the file-creating tools.  `file_path`/`relative_path` are
`Option PyPath`; an absent or empty ("falsy") path is `none`.  `content`
models `tool_input.get("content", "")`. -/

structure ToolInput where
  file_path : Option PyPath := none
  relative_path : Option PyPath := none
  content : String := ""
  subagent_type : Option String := none
  double_check : Bool := false
deriving DecidableEq, Repr

/-- Result dict of `validate_file_operation_safety`. -/
structure SafetyResult where
  safe : Bool
  reason : String
  suggested_path : Option PyPath := none
  file_type : Option String := none
deriving DecidableEq, Repr

/-- The tools checked by `validate_file_operation_safety`. -/
def file_creating_tools : List String :=
  ["Write", "mcp__serena__create_text_file", "Edit", "MultiEdit"]

/-- The deny reason template (interpolating the original and suggested
paths, abridged to its operative lines). -/
def violationReason (fp sp : PyPath) : String :=
  "COMPASS File Organization Violation: the file " ++ pathStr fp ++
  " would be created in the project root directory. SUGGESTED ACTION: Use proper path: "
  ++ pathStr sp

/-- Function `validate_file_operation_safety(tool_name, tool_input)` from the
source: only the four file-creating tools are checked, the path is taken
from `file_path` (or `relative_path` for the serena tool), and a root
write is reported unsafe only when the path ends in `.md`, with a
suggested redirect categorised as test / validation / documentation. -/
def validate_file_operation_safety (root : PyPath) (tool_name : String)
    (tool_input : ToolInput) : SafetyResult :=
  if tool_name ∉ file_creating_tools then
    { safe := true, reason := "Tool does not create files" }
  else
    let fp? : Option PyPath :=
      if tool_name = "Write" then tool_input.file_path
      else if tool_name = "mcp__serena__create_text_file" then tool_input.relative_path
      else tool_input.file_path
    match fp? with
    | none => { safe := true, reason := "No file path specified" }
    | some fp =>
      if ¬ validate_path_safety root fp then
        if strEndsWith (pathStr fp) ".md" then
          let lowerPath := strLower (pathStr fp)
          if strContains lowerPath "test" ∨ strContains lowerPath "jung" ∨
              strContains lowerPath "integration" then
            let sp := get_test_path root (pathName fp)
            { safe := false, reason := violationReason fp sp,
              suggested_path := some sp, file_type := some "test" }
          else if strContains (strLower tool_input.content) "validation" ∨
              strContains (strLower tool_input.content) "test" then
            let sp := get_validation_doc_path root (pathName fp)
            { safe := false, reason := violationReason fp sp,
              suggested_path := some sp, file_type := some "validation" }
          else
            let sp := get_documentation_path root (pathName fp)
            { safe := false, reason := violationReason fp sp,
              suggested_path := some sp, file_type := some "documentation" }
        else
          { safe := true, reason := "Path validation passed" }
      else
        { safe := true, reason := "Path validation passed" }


/-! ## JSON values and state files -/

/-- JSON documents (numbers restricted to integers; every number in the
repository state files is an integer). -/
inductive Json where
  | null : Json
  | bool (b : Bool) : Json
  | num (n : Int) : Json
  | str (s : String) : Json
  | arr (items : List Json) : Json
  | obj (fields : List (String × Json)) : Json

/-- Python exceptions that the embedding distinguishes. -/
inductive PyErr where
  | attributeError : PyErr
  | typeError : PyErr
  | valueError : PyErr
  | osError : PyErr
deriving DecidableEq, Repr

/-- Model of `d.get(key, default)` on a parsed JSON object. -/
def jsonGetD (fields : List (String × Json)) (key : String) (dflt : Json) : Json :=
  (fields.lookup key).getD dflt

/-- Python truthiness of a JSON value. -/
def pyTruthy : Json → Bool
  | .null => false
  | .bool b => b
  | .num n => n ≠ 0
  | .str s => s ≠ ""
  | .arr items => ¬ items.isEmpty
  | .obj fields => ¬ fields.isEmpty

mutual

/-- Compact JSON serialisation (`json.dumps(..., separators=(",", ":"))`);
string escaping is the identity since no string written by the handler
contains characters needing escapes. -/
def serializeJson : Json → String
  | .null => "null"
  | .bool b => if b then "true" else "false"
  | .num n => toString n
  | .str s => "\"" ++ s ++ "\""
  | .arr items => "[" ++ serializeArr items ++ "]"
  | .obj fields => "\x7b" ++ serializeObj fields ++ "\x7d"

def serializeArr : List Json → String
  | [] => ""
  | [j] => serializeJson j
  | j :: rest => serializeJson j ++ "," ++ serializeArr rest

def serializeObj : List (String × Json) → String
  | [] => ""
  | [(k, v)] => "\"" ++ k ++ "\":" ++ serializeJson v
  | (k, v) :: rest => "\"" ++ k ++ "\":" ++ serializeJson v ++ "," ++ serializeObj rest

end

mutual

/-- Model of `json.dumps(data)` with the default separators `", "` / `": "`
(used by the re-check inside `load_json_memory_safe`). -/
def serializeJsonDefault : Json → String
  | .null => "null"
  | .bool b => if b then "true" else "false"
  | .num n => toString n
  | .str s => "\"" ++ s ++ "\""
  | .arr items => "[" ++ serializeArrD items ++ "]"
  | .obj fields => "\x7b" ++ serializeObjD fields ++ "\x7d"

def serializeArrD : List Json → String
  | [] => ""
  | [j] => serializeJsonDefault j
  | j :: rest => serializeJsonDefault j ++ ", " ++ serializeArrD rest

def serializeObjD : List (String × Json) → String
  | [] => ""
  | [(k, v)] => "\"" ++ k ++ "\": " ++ serializeJsonDefault v
  | (k, v) :: rest => "\"" ++ k ++ "\": " ++ serializeJsonDefault v ++ ", " ++ serializeObjD rest

end

/-- A state file on disk: its byte size and its parse result (`none`
models content `json.load` rejects). -/
structure RawFile where
  size : Nat
  parsed : Option Json

/-- Write a JSON document: the stored size is that of the compact
serialisation the handler writes. -/
def writeJsonFile (j : Json) : RawFile :=
  { size := (serializeJson j).length, parsed := some j }

/-- One line of the handler log: `none` models a line `json.loads`
rejects. -/
abbrev RawLine := Option Json

/-- The handler log file: its parsed lines (in order) and its byte size. -/
structure LogFile where
  lines : List RawLine
  size : Nat

/-- The project filesystem state read and written by the handler:
`.claude/logs/compass-status` (existence only), its lock file, the
`compass-tokens.json` lock file, `compass-session.json`,
`compass-tokens.json`, `compass-handler.log` and its `.old` rotation
backup, and the `docs/` directory (`docsRecentMd`: some `docs/*.md` has
mtime within the last 600 seconds). -/
structure FS where
  statusFile : Bool := false
  statusLock : Bool := false
  tokensLock : Bool := false
  sessionFile : Option RawFile := none
  tokenFile : Option RawFile := none
  logFile : Option LogFile := none
  logOld : Option LogFile := none
  docsDirExists : Bool := false
  docsRecentMd : Bool := false

/-- A freshly initialised project directory: no marker, session, log,
token or docs files. -/
def freshFS : FS := {}

/-! ## Timestamps -/

/-- Model of `datetime.now().isoformat()` at model time `now`. -/
def isoStr (now : Int) : String := toString now

/-- Model of `datetime.fromisoformat` on the model encoding: decimal strings
parse, anything else raises (modelled as `none`). -/
def parseTs (s : String) : Option Int := s.toInt?

/-- Function `is_recent_timestamp_extended`: within the last 10 minutes; parse
failures are caught inside the function and yield `False`. -/
def is_recent_timestamp_extended (now : Int) (timestamp_str : String) : Bool :=
  match parseTs timestamp_str with
  | some t => now - t < 600
  | none => false

/-- Function `is_session_timestamp_valid(timestamp_str, seconds_threshold)`; a
non-string argument raises inside and is caught, yielding `False`. -/
def is_session_timestamp_valid (now : Int) (j : Json) (threshold : Int) : Bool :=
  match j with
  | .str s =>
    match parseTs s with
    | some t => now - t < threshold
    | none => false
  | _ => false

/-! ## Session state oracle -/

/-- Function `check_compass_session_active`: the session-tracking record signal.
True only when `compass-session.json` exists, parses to an object with
truthy `session_start` and `last_activity`, and both stamps are within
600 seconds of now.  Every failure path returns `False` (the whole body
is wrapped in `except Exception`). -/
def check_compass_session_active (now : Int) (fs : FS) : Bool :=
  match fs.sessionFile with
  | none => false
  | some raw =>
    match raw.parsed with
    | none => false
    | some (.obj fields) =>
      let session_start := jsonGetD fields "session_start" (.str "")
      let last_activity := jsonGetD fields "last_activity" (.str "")
      if ¬ pyTruthy session_start ∨ ¬ pyTruthy last_activity then false
      else if is_session_timestamp_valid now session_start 600 then
        is_session_timestamp_valid now last_activity 600
      else false
    | some _ => false

/-- The log actions counted as COMPASS activity by the oracle. -/
def compass_actions : List String :=
  ["compass_required", "agent_active", "token_tracking", "prompt_routing",
   "phase_update", "compass_complete"]

/-- Scan of one parsed log line inside `compass_context_active`.  A
non-object line raises `AttributeError` at `log_entry.get` and a
non-string `agent_type` raises at `.startswith`; both escape the inner
`except (JSONDecodeError, KeyError)`. -/
def logLineSignal (now : Int) : Json → Except PyErr Bool
  | .obj fields =>
    let action := jsonGetD fields "action" (.str "")
    let ts := jsonGetD fields "timestamp" (.str "")
    let recent := match ts with
      | .str s => is_recent_timestamp_extended now s
      | _ => false
    let actionOk : Bool := match action with
      | .str a => decide (a ∈ compass_actions)
      | _ => false
    if actionOk && recent then
      .ok true
    else
      match jsonGetD fields "agent_type" (.str "") with
      | .str ag => .ok (strStartsWith ag "compass-" && recent)
      | _ => .error .attributeError
  | _ => .error .attributeError

/-- The `for line in recent_lines` loop over the last 20 log lines: the
first signalling line returns `True`; a malformed-JSON line is skipped by
the inner `except`; any other exception aborts the whole scan, and the
surrounding `except Exception` turns it into no signal. -/
def logScan (now : Int) : List RawLine → Bool
  | [] => false
  | line :: rest =>
    match line with
    | none => logScan now rest
    | some j =>
      match logLineSignal now j with
      | .ok true => true
      | .ok false => logScan now rest
      | .error _ => false

/-- Function `check_recent_compass_tokens`: the token-ledger signal.  Catches only
`JSONDecodeError` and `FileNotFoundError`; a token file parsing to a
non-object raises `AttributeError` at `token_data.get`, and a non-object
`by_agent` raises at `.keys()`. -/
def check_recent_compass_tokens (now : Int) (fs : FS) : Except PyErr Bool :=
  match fs.tokenFile with
  | none => .ok false
  | some raw =>
    match raw.parsed with
    | none => .ok false
    | some (.obj fields) =>
      let last_update := jsonGetD fields "last_update" (.str "")
      let recent := match last_update with
        | .str s => is_recent_timestamp_extended now s
        | _ => false
      if recent then .ok true
      else
        match jsonGetD fields "by_agent" (.obj []) with
        | .obj by_agent => .ok (by_agent.any fun kv => strStartsWith kv.1 "compass-")
        | _ => .error .attributeError
    | some _ => .error .attributeError

/-- Function `compass_context_active`: the five-signal session oracle, in source
order (status marker, session record, log tail, recent docs, token
ledger).  The logging side effects inside it are elided (they never feed
back into the decision).  The token-ledger check is not wrapped in any
`try`, so its exception propagates out of the oracle. -/
def compass_context_active (now : Int) (fs : FS) : Except PyErr Bool :=
  if fs.statusFile then .ok true
  else if check_compass_session_active now fs then .ok true
  else
    let logSignal := match fs.logFile with
      | none => false
      | some lf => logScan now ((lf.lines.reverse.take 20).reverse)
    if logSignal then .ok true
    else if fs.docsDirExists && fs.docsRecentMd then .ok true
    else do
      let t ← check_recent_compass_tokens now fs
      if t then return true else return false

/-! ## Stale-session cleanup -/

/-- Function `cleanup_compass_status_if_stale`: returns whether cleanup was
performed and the resulting filesystem.  Proceeds only when the status
marker exists; deletes the marker, `compass-session.json` and the two
lock files exactly when `check_compass_session_active` reports inactive.
Total (the body is wrapped in `except Exception`, and every unlink is
guarded by an existence test). -/
def cleanup_compass_status_if_stale (now : Int) (fs : FS) : Bool × FS :=
  if ¬ fs.statusFile then (false, fs)
  else if ¬ check_compass_session_active now fs then
    (true, { fs with statusFile := false, sessionFile := none,
                     statusLock := false, tokensLock := false })
  else (false, fs)


/-! ## Token ledger (`update_session_token_count` and helpers) -/

/-- Constant `MAX_INPUT_SIZE` (512KB). -/
def MAX_INPUT_SIZE : Nat := 512 * 1024
/-- Constant `MAX_TOKEN_SESSIONS`. -/
def MAX_TOKEN_SESSIONS : Nat := 25
/-- Constant `MAX_TOKEN_FILE_SIZE` (256KB). -/
def MAX_TOKEN_FILE_SIZE : Nat := 256 * 1024
/-- Constant `MAX_AGENT_TRACKING`. -/
def MAX_AGENT_TRACKING : Nat := 50
/-- Constant `MAX_PHASE_TRACKING`. -/
def MAX_PHASE_TRACKING : Nat := 8
/-- Constant `MAX_LOG_SIZE` (2MB). -/
def MAX_LOG_SIZE : Nat := 2 * 1024 * 1024

/-- The in-memory token ledger after `validate_and_clean_token_data`:
`total`, the two integer maps (association lists in insertion order, as
Python dicts), the preserved `session_start` value and the `last_update`
stamp. -/
structure TokenData where
  total : Int
  by_agent : List (String × Int)
  by_phase : List (String × Int)
  session_start : Json
  last_update : String

/-- Function `create_empty_token_data()`. -/
def create_empty_token_data (now : Int) : TokenData :=
  { total := 0, by_agent := [], by_phase := [],
    session_start := .str (isoStr now), last_update := isoStr now }

/-- Python `int(x)` on a JSON value: numbers pass through, booleans count
as 0/1 (`bool` is an `int` subclass), numeric strings parse, anything
else raises. -/
def pyIntOfJson : Json → Except PyErr Int
  | .num n => .ok n
  | .bool b => .ok (if b then 1 else 0)
  | .str s => match s.toInt? with
    | some n => .ok n
    | none => .error .valueError
  | .null => .error .typeError
  | .arr _ => .error .typeError
  | .obj _ => .error .typeError

/-- One map entry surviving the `isinstance(count, (int, float)) and
count >= 0` filter of `validate_and_clean_token_data`. -/
def cleanMapEntry (kv : String × Json) : Option (String × Int) :=
  match kv.2 with
  | .num n => if 0 ≤ n then some (kv.1, n) else none
  | .bool b => some (kv.1, if b then 1 else 0)
  | _ => none

/-- Function `validate_and_clean_token_data`: a non-dict becomes an empty ledger;
`total` is `max(0, int(...))` — `int` raising on a non-numeric value
propagates out (it is not caught inside this function); `by_agent` is
kept (filtered) only when it is a dict of at most `MAX_TOKEN_SESSIONS`
entries; `by_phase` is filtered without a size bound. -/
def validate_and_clean_token_data (now : Int) (j : Json) : Except PyErr TokenData :=
  match j with
  | .obj fields => do
    let t ← pyIntOfJson (jsonGetD fields "total" (.num 0))
    let by_agent := match jsonGetD fields "by_agent" (.obj []) with
      | .obj ba => if ba.length ≤ MAX_TOKEN_SESSIONS then ba.filterMap cleanMapEntry else []
      | _ => []
    let by_phase := match jsonGetD fields "by_phase" (.obj []) with
      | .obj bp => bp.filterMap cleanMapEntry
      | _ => []
    return { total := max 0 t, by_agent := by_agent, by_phase := by_phase,
             session_start := jsonGetD fields "session_start" (.str (isoStr now)),
             last_update := isoStr now }
  | _ => .ok (create_empty_token_data now)

/-- Function `map_agent_to_phase`: the fixed phase table. -/
def map_agent_to_phase (agent_type : String) : Option String :=
  [("compass-captain", "coordination"),
   ("compass-complexity-analyzer", "strategic_planning"),
   ("compass-strategy-builder", "strategic_planning"),
   ("compass-validation-coordinator", "strategic_planning"),
   ("compass-knowledge-discovery", "phase1_knowledge_query"),
   ("compass-todo-sync", "phase1_foundation"),
   ("compass-pattern-apply", "phase2_pattern_application"),
   ("compass-doc-planning", "phase2_documentation_planning"),
   ("compass-data-flow", "phase2_data_flow_analysis"),
   ("compass-auth-performance-analyst", "phase2_auth_specialists"),
   ("compass-auth-security-validator", "phase2_auth_specialists"),
   ("compass-auth-optimization-specialist", "phase2_auth_specialists"),
   ("compass-writing-analyst", "phase2_writing_specialists"),
   ("compass-academic-analyst", "phase2_writing_specialists"),
   ("compass-memory-enhanced-writer", "phase2_writing_specialists"),
   ("compass-dependency-tracker", "phase2_dependency_specialists"),
   ("compass-gap-analysis", "phase3_gap_analysis"),
   ("compass-enhanced-analysis", "phase4_enhanced_analysis"),
   ("compass-cross-reference", "phase5_parallel_finalization"),
   ("compass-svg-analyst", "phase5_parallel_finalization"),
   ("compass-upstream-validator", "phase5_quality_validation"),
   ("compass-coder", "phase6_execution_bridge"),
   ("compass-memory-integrator", "phase7_memory_integration"),
   ("compass-second-opinion", "advisory_expert_consultation"),
   ("compass-breakthrough-doc", "breakthrough_documentation")].lookup agent_type

/-- Model of `d.get(k, 0)` on an integer map. -/
def dictGetInt (d : List (String × Int)) (k : String) : Int :=
  (d.lookup k).getD 0

/-- Model of `d[k] = v` on a Python dict: update in place, or append a new key. -/
def dictInsert (d : List (String × Int)) (k : String) (v : Int) : List (String × Int) :=
  if d.any (fun kv => kv.1 = k) then
    d.map (fun kv => if kv.1 = k then (k, v) else kv)
  else d ++ [(k, v)]

/-- Model of `sorted(d.items(), key=lambda x: x[1], reverse=True)[:n]` (stable
descending sort by value, keep the top `n`). -/
def topByValue (d : List (String × Int)) (n : Nat) : List (String × Int) :=
  (d.insertionSort fun a b => b.2 ≤ a.2).take n

/-- Function `cleanup_old_agents_optimized`: keep the `MAX_AGENT_TRACKING` largest
agent entries. -/
def cleanup_old_agents_optimized (td : TokenData) : TokenData :=
  if td.by_agent.length > MAX_AGENT_TRACKING then
    { td with by_agent := topByValue td.by_agent MAX_AGENT_TRACKING }
  else td

/-- Function `cleanup_old_phases`: keep the `MAX_PHASE_TRACKING` largest phase
entries. -/
def cleanup_old_phases (td : TokenData) : TokenData :=
  if td.by_phase.length > MAX_PHASE_TRACKING then
    { td with by_phase := topByValue td.by_phase MAX_PHASE_TRACKING }
  else td

/-- The ledger as written back to `compass-tokens.json` (insertion order
of `create_empty_token_data` / `validate_and_clean_token_data`). -/
def tokenDataToJson (td : TokenData) : Json :=
  .obj [("total", .num td.total),
        ("by_agent", .obj (td.by_agent.map fun kv => (kv.1, Json.num kv.2))),
        ("by_phase", .obj (td.by_phase.map fun kv => (kv.1, Json.num kv.2))),
        ("session_start", td.session_start),
        ("last_update", .str td.last_update)]

/-- The minimal ledger written by `perform_emergency_token_cleanup`. -/
def emergencyTokenJson (now : Int) : Json :=
  .obj [("total", .num 0),
        ("session_start", .str (isoStr now)),
        ("last_update", .str (isoStr now)),
        ("by_agent", .obj []),
        ("by_phase", .obj []),
        ("emergency_cleanup", .bool true),
        ("cleanup_timestamp", .str (isoStr now))]

/-- Function `load_json_memory_safe(file_path, max_size)`: `none` when the file is
over `max_size`, fails to parse, or re-serialises (default separators)
over `max_size`. -/
def load_json_memory_safe (raw : RawFile) (max_size : Nat) : Option Json :=
  if raw.size > max_size then none
  else match raw.parsed with
    | none => none
    | some j =>
      if (serializeJsonDefault j).length > max_size then none
      else some j

/-- Python `min(jsonValue, bound)` as used on `data.get("total", 0)` in
`cleanup_token_file`: numbers (and booleans) compare, anything else
raises `TypeError`. -/
def pyMinJson (j : Json) (bound : Int) : Except PyErr Int :=
  match j with
  | .num n => .ok (min n bound)
  | .bool b => .ok (min (if b then 1 else 0) bound)
  | _ => .error .typeError

/-- Map values as sorted by `cleanup_token_file`; the model sorts numeric
maps and raises `TypeError` otherwise (mixed-type Python comparison). -/
def pyNumMap (fields : List (String × Json)) : Except PyErr (List (String × Int)) :=
  match fields.mapM (fun kv => match kv.2 with
    | Json.num n => some (kv.1, n)
    | Json.bool b => some (kv.1, if b then (1 : Int) else 0)
    | _ => none) with
  | some l => .ok l
  | none => .error .typeError

/-- Function `cleanup_token_file`: over the cap, write the minimal emergency
ledger; otherwise load, compress to the top 5 agents / top
`MAX_PHASE_TRACKING` phases and a capped total, and rewrite; a parse
failure removes the file (`unlink`).  A raise before any write leaves the
file unchanged, which the caller observes as the propagated exception. -/
def cleanup_token_file (now : Int) (raw : RawFile) : Except PyErr (Option RawFile) :=
  if raw.size > MAX_TOKEN_FILE_SIZE then
    .ok (some (writeJsonFile (emergencyTokenJson now)))
  else
    match raw.parsed with
    | none => .ok none
    | some j => do
      let fields := match j with
        | .obj fields => fields
        | _ => []
      let t ← pyMinJson (jsonGetD fields "total" (.num 0)) 1000000
      let by_agent ← match jsonGetD fields "by_agent" (.obj []) with
        | .obj ba => pyNumMap ba
        | _ => pure []
      let by_phase ← match jsonGetD fields "by_phase" (.obj []) with
        | .obj bp => pyNumMap bp
        | _ => pure []
      let cleaned : Json := .obj
        [("total", .num t),
         ("session_start", .str (isoStr now)),
         ("last_update", .str (isoStr now)),
         ("by_agent", .obj ((topByValue by_agent 5).map fun kv => (kv.1, Json.num kv.2))),
         ("by_phase", .obj ((topByValue by_phase MAX_PHASE_TRACKING).map fun kv => (kv.1, Json.num kv.2)))]
      return some (writeJsonFile cleaned)

/-- Function `update_session_token_count(agent_type, token_count)`: the oversized
pre-check (running `cleanup_token_file`), then under the file lock the
memory-safe load, validation/cleaning, the count updates, the two
eviction passes and the compact write-back.  Any exception escaping these
steps is caught by the outer `except Exception` and the update is
abandoned (the function never raises). -/
def update_session_token_count (now : Int) (agent : String) (count : Int)
    (fs : FS) : FS :=
  let step1 : Except PyErr FS :=
    match fs.tokenFile with
    | some raw =>
      if raw.size > MAX_TOKEN_FILE_SIZE then
        match cleanup_token_file now raw with
        | .ok tf => .ok { fs with tokenFile := tf }
        | .error e => .error e
      else .ok fs
    | none => .ok fs
  match step1 with
  | .error _ => fs
  | .ok fs1 =>
    let data : Except PyErr TokenData :=
      match fs1.tokenFile with
      | some raw =>
        match load_json_memory_safe raw MAX_TOKEN_FILE_SIZE with
        | none => .ok (create_empty_token_data now)
        | some j => validate_and_clean_token_data now j
      | none => .ok (create_empty_token_data now)
    match data with
    | .error _ => fs1
    | .ok td =>
      let td := { td with total := td.total + count,
                          by_agent :=
                            (dictInsert td.by_agent agent (dictGetInt td.by_agent agent + count)),
                          last_update := isoStr now }
      let td := match map_agent_to_phase agent with
        | some ph =>
          { td with by_phase := (dictInsert td.by_phase ph (dictGetInt td.by_phase ph + count)) }
        | none => td
      let td := cleanup_old_agents_optimized td
      let td := cleanup_old_phases td
      { fs1 with tokenFile := some (writeJsonFile (tokenDataToJson td)) }

/-- Reading `total` back from the on-disk ledger. -/
def read_token_total (fs : FS) : Option Int :=
  match fs.tokenFile with
  | some raw =>
    match raw.parsed with
    | some (.obj fields) =>
      match fields.lookup "total" with
      | some (.num t) => some t
      | _ => none
    | _ => none
  | none => none

/-- Reading the `by_agent` map back from the on-disk ledger. -/
def read_token_by_agent (fs : FS) : Option (List (String × Int)) :=
  match fs.tokenFile with
  | some raw =>
    match raw.parsed with
    | some (.obj fields) =>
      match fields.lookup "by_agent" with
      | some (.obj ba) => ba.mapM (fun kv => match kv.2 with
          | Json.num n => some (kv.1, n)
          | _ => none)
      | _ => none
    | _ => none
  | none => none


/-! ## binary64 arithmetic and `estimate_agent_tokens`

Every float appearing in `estimate_agent_tokens` is a nonnegative dyadic
rational well inside the normal binary64 range, so IEEE-754 arithmetic is
exactly: take the exact rational result and round it to 53 significant
bits, ties to even.  A float is represented as `F64`: a mantissa and a
power-of-two exponent, denoting `m * 2 ^ e` (integers only, so that the
kernel can evaluate every operation). -/

/-- Fuel-driven bit counting (structural recursion, so that the kernel
can evaluate it). -/
def bitLenAux : Nat → Nat → Nat
  | 0, _ => 0
  | fuel + 1, n => if n = 0 then 0 else bitLenAux fuel (n / 2) + 1

/-- The number of binary digits of `n` (0 for 0). -/
def bitLength (n : Nat) : Nat := bitLenAux (n + 1) n

/-- A nonnegative binary64 value `m * 2 ^ e`. -/
structure F64 where
  m : Nat
  e : Int
deriving DecidableEq, Repr

/-- Round `m * 2 ^ e` to 53 significant bits, ties to even: the binary64
rounding applied by every Python float operation in
`estimate_agent_tokens` (no overflow or subnormals are reachable). -/
def roundF (m : Nat) (e : Int) : F64 :=
  let L := bitLength m
  if L ≤ 53 then ⟨m, e⟩
  else
    let s := L - 53
    let hi := m / 2 ^ s
    let lowBits := m % 2 ^ s
    let half := 2 ^ (s - 1)
    let rounded := if lowBits > half ∨ (lowBits = half ∧ hi % 2 = 1) then hi + 1 else hi
    ⟨rounded, e + s⟩

/-- Python `float(n)` on a nonnegative int. -/
def pyFloat (n : Nat) : F64 := roundF n 0

/-- Python float multiplication. -/
def fmul (a b : F64) : F64 := roundF (a.m * b.m) (a.e + b.e)

/-- The two mantissas brought to the common (minimal) exponent. -/
def falignedParts (a b : F64) : Nat × Nat × Int :=
  let e := min a.e b.e
  (a.m * 2 ^ (a.e - e).toNat, b.m * 2 ^ (b.e - e).toNat, e)

/-- Python float addition. -/
def fadd (a b : F64) : F64 :=
  let p := falignedParts a b
  roundF (p.1 + p.2.1) p.2.2

/-- Exact float comparison (`<=`). -/
def fle (a b : F64) : Bool :=
  let p := falignedParts a b
  p.1 ≤ p.2.1

/-- Python `min` on two float values. -/
def fmin (a b : F64) : F64 := if fle a b then a else b

/-- Python `int(x)` on a nonnegative float (truncation). -/
def ffloor (a : F64) : Int :=
  if a.e ≥ 0 then (a.m : Int) * 2 ^ a.e.toNat
  else ((a.m / 2 ^ (-a.e).toNat : Nat) : Int)

/-- The binary64 value of the literal `0.2`. -/
def float_0_2 : F64 := ⟨3602879701896397, -54⟩

/-- The binary64 value of the literal `1.0`. -/
def float_1_0 : F64 := ⟨1, 0⟩

/-- The agent complexity multiplier table of `estimate_agent_tokens`;
each entry is the binary64 value of the decimal literal in the source. -/
def agent_multipliers : List (String × F64) :=
  [("compass-captain", ⟨5404319552844595, -52⟩),          -- 1.2
   ("compass-knowledge-discovery", ⟨3, -1⟩),              -- 1.5
   ("compass-pattern-apply", ⟨5854679515581645, -52⟩),    -- 1.3
   ("compass-gap-analysis", ⟨3152519739159347, -51⟩),     -- 1.4
   ("compass-doc-planning", ⟨2476979795053773, -51⟩),     -- 1.1
   ("compass-enhanced-analysis", ⟨2, 0⟩),                 -- 2.0
   ("compass-cross-reference", ⟨3602879701896397, -51⟩),  -- 1.6
   ("compass-coder", ⟨8106479329266893, -52⟩),            -- 1.8
   ("compass-auth-analyst", ⟨7656119366529843, -52⟩),     -- 1.7
   ("compass-writing-specialist", ⟨3602879701896397, -51⟩),  -- 1.6
   ("compass-academic-analyst", ⟨2476979795053773, -50⟩), -- 2.2
   ("compass-data-flow", ⟨3, -1⟩),                        -- 1.5
   ("compass-syntax-validator", ⟨3152519739159347, -51⟩), -- 1.4
   ("compass-second-opinion", ⟨8106479329266893, -52⟩),   -- 1.8
   ("compass-breakthrough-doc", ⟨5854679515581645, -52⟩), -- 1.3
   ("Code", ⟨3152519739159347, -51⟩),                     -- 1.4
   ("Task", ⟨5404319552844595, -52⟩),                     -- 1.2
   ("Debugger", ⟨3602879701896397, -51⟩),                 -- 1.6
   ("Data Scientist", ⟨8106479329266893, -52⟩)]           -- 1.8

/-- Function `estimate_agent_tokens(agent_type, prompt_content, tool_input)`:
empty content short-circuits to 0; otherwise `len(content) // 4` scaled
by the multiplier (default 1.0), plus `min(base_tokens * 0.2, 500)`
context overhead for `compass-` names, plus `len(str(tool_input)) // 10`
when `tool_input` is truthy (`tool_input` is modelled as the `str` of the
extra input, `none` when absent or falsy — the `str` of every falsy value
is shorter than 10 characters, so the addend is 0 under either reading).
Pure: no I/O.  All arithmetic is binary64. -/
def estimate_agent_tokens (agent_type prompt_content : String)
    (tool_input : Option String) : Int :=
  if prompt_content = "" then 0
  else
    let base_tokens : Nat := prompt_content.length / 4
    let agent_tokens := fmul (pyFloat base_tokens)
      ((agent_multipliers.lookup agent_type).getD float_1_0)
    let agent_tokens := if strStartsWith agent_type "compass-" then
        fadd agent_tokens (fmin (fmul (pyFloat base_tokens) float_0_2) ⟨500, 0⟩)
      else agent_tokens
    let agent_tokens := match tool_input with
      | some s => fadd agent_tokens (pyFloat (s.length / 10))
      | none => agent_tokens
    ffloor agent_tokens

/-- The multiplier table as the decimal values written in the source
(exact rationals), for the claim-side formula. -/
def claim_multipliers : List (String × ℚ) :=
  [("compass-captain", 12/10), ("compass-knowledge-discovery", 15/10),
   ("compass-pattern-apply", 13/10), ("compass-gap-analysis", 14/10),
   ("compass-doc-planning", 11/10), ("compass-enhanced-analysis", 2),
   ("compass-cross-reference", 16/10), ("compass-coder", 18/10),
   ("compass-auth-analyst", 17/10), ("compass-writing-specialist", 16/10),
   ("compass-academic-analyst", 22/10), ("compass-data-flow", 15/10),
   ("compass-syntax-validator", 14/10), ("compass-second-opinion", 18/10),
   ("compass-breakthrough-doc", 13/10), ("Code", 14/10), ("Task", 12/10),
   ("Debugger", 16/10), ("Data Scientist", 18/10)]

/-- The claim formula read with exact rational arithmetic: truncation of
`(len div 4) * multiplier + overhead + addend` where the multiplier is
the decimal value written in the source and the overhead is
`min(base / 5, 500)` for `compass-` names.  This definition follows the
specification sentence, for comparison with the source function. -/
def estimateClaimExact (agent_type prompt_content : String)
    (tool_input : Option String) : Int :=
  if prompt_content = "" then 0
  else
    let base : ℚ := (prompt_content.length / 4 : Nat)
    let scaled := base * (claim_multipliers.lookup agent_type).getD 1
    let overhead : ℚ := if strStartsWith agent_type "compass-" then min (base / 5) 500 else 0
    let addend : ℚ := match tool_input with
      | some s => ((s.length / 10 : Nat) : ℚ)
      | none => 0
    Int.floor (scaled + overhead + addend)

/-- A 180-character content string (the counterexample input for the
token estimator). -/
def content180 : String := String.mk (List.replicate 180 'x')


/-! ## Logger (`log_handler_activity`, `validate_log_entry_schema`,
`rotate_log_file`)

I/O faults are modelled by `LogFaults`: each flag makes the
corresponding primitive raise `OSError`.  The recursive
`log_handler_activity` calls inside `validate_log_entry_schema` and
`secure_json_dumps` (reachable only on failures that the constructed
entries never produce) are elided. -/

structure LogFaults where
  unlinkFails : Bool := false
  renameFails : Bool := false
  freshWriteFails : Bool := false
  appendFails : Bool := false

/-- Python `str(x)` of a JSON value (only its length is consumed, by the
`len(str(details))` bound in the schema validator). -/
def pyStr : Json → String
  | .str s => s
  | .num n => toString n
  | .bool b => if b then "True" else "False"
  | .null => "None"
  | j => serializeJson j

/-- Function `validate_log_entry_schema`: requires `timestamp`, `action`,
`details`, `handler` (not `version`), string types for the first, second
and fourth, a parseable timestamp, `len(action) <= 100` and
`len(str(details)) <= 1000`. -/
def validate_log_entry_schema (entry : List (String × Json)) : Bool :=
  (["timestamp", "action", "details", "handler"].all fun k =>
      (entry.lookup k).isSome) &&
  (match entry.lookup "timestamp" with
   | some (.str ts) => (parseTs ts).isSome
   | _ => false) &&
  (match entry.lookup "action" with
   | some (.str a) => a.length ≤ 100
   | _ => false) &&
  (match entry.lookup "handler" with
   | some (.str _) => true
   | _ => false) &&
  (match entry.lookup "details" with
   | some d => (pyStr d).length ≤ 1000
   | none => false)

/-- The log entry constructed at the top of `log_handler_activity`. -/
def mkLogEntry (now : Int) (action details : String) : List (String × Json) :=
  [("timestamp", .str (isoStr now)), ("action", .str action),
   ("details", .str details), ("handler", .str "compass-handler"),
   ("version", .str "2.1")]

/-- The sanitized entry substituted when schema validation fails. -/
def sanitizedLogEntry (now : Int) (action : String) : List (String × Json) :=
  [("timestamp", .str (isoStr now)), ("action", .str "validation_failed"),
   ("details", .str ("Invalid log entry format for action: " ++ strTake action 50)),
   ("handler", .str "compass-handler"), ("version", .str "2.1")]

/-- The fallback entry written when `secure_json_dumps` raises (note: it
has no `version` field). -/
def serializationFailedEntry (now : Int) : List (String × Json) :=
  [("timestamp", .str (isoStr now)), ("action", .str "serialization_failed"),
   ("details", .str "Log serialization error"), ("handler", .str "compass-handler")]

/-- A log file holding exactly one just-written entry line. -/
def lineFile (j : Json) : LogFile :=
  { lines := [some j], size := (serializeJson j).length + 1 }

/-- Appending one serialised entry line to the log. -/
def appendEntry (lf : Option LogFile) (j : Json) : LogFile :=
  match lf with
  | none => lineFile j
  | some f => { lines := f.lines ++ [some j],
                size := f.size + (serializeJson j).length + 1 }

/-- The `log_rotated` marker entry. -/
def rotatedLine (now : Int) : Json :=
  .obj (mkLogEntry now "log_rotated" "Rotated log file")

/-- The `log_truncated` marker entry. -/
def truncatedLine (now : Int) : Json :=
  .obj (mkLogEntry now "log_truncated" "Log rotation failed, truncated log file")

/-- Function `rotate_log_file`: delete the old backup, rename the log to `.old`
and start a fresh log with a `log_rotated` line; on `OSError` fall back
to truncating the log (and swallow a failure of that too). -/
def rotate_log_file (faults : LogFaults) (now : Int) (fs : FS) : FS :=
  if (faults.unlinkFails && fs.logOld.isSome) || faults.renameFails then
    -- OSError before the rename took effect: truncate in place
    if faults.freshWriteFails then fs
    else { fs with logFile := some (lineFile (truncatedLine now)) }
  else if faults.freshWriteFails then
    -- rename succeeded, both fresh writes fail: log renamed away
    { fs with logOld := fs.logFile, logFile := none }
  else
    { fs with logOld := fs.logFile, logFile := some (lineFile (rotatedLine now)) }

/-- Function `log_handler_activity(action, details)`: build the entry, substitute
the sanitized entry when schema validation fails, rotate when the log
exceeds `MAX_LOG_SIZE`, serialise (falling back to a minimal entry over
the 10KB per-entry bound) and append one line; every I/O failure is
swallowed. -/
def log_handler_activity (faults : LogFaults) (now : Int)
    (action details : String) (fs : FS) : FS :=
  let entry := mkLogEntry now action details
  let entry := if validate_log_entry_schema entry then entry
               else sanitizedLogEntry now action
  let fs1 := match fs.logFile with
    | some lf => if lf.size > MAX_LOG_SIZE then rotate_log_file faults now fs else fs
    | none => fs
  let outEntry := if (serializeJson (.obj entry)).length ≤ 10240 then Json.obj entry
                  else Json.obj (serializationFailedEntry now)
  if faults.appendFails then fs1
  else { fs1 with logFile := some (appendEntry fs1.logFile outEntry) }

/-! ## Handler core (`compass_handler_core`) -/

/-- The coordination-context text injected by `inject_compass_context`
(the `compass_context` template, whitespace-normalised). -/
def compassContextText : String :=
  "COMPASS STRATEGIC ROUTING. All tasks now route through compass-captain " ++
  "for optimal methodology selection and execution. MANDATORY: Use the Task " ++
  "tool with subagent_type \"compass-captain\" to: receive strategic plan from " ++
  "compass-methodology-selector, execute optimized methodology based on task " ++
  "complexity, coordinate institutional knowledge integration, provide " ++
  "real-time token tracking and cost visibility, apply right-sized analysis " ++
  "approach (Light/Medium/Full COMPASS). TOKEN TRACKING: Real-time " ++
  "visibility with strategic budget optimization. STATUS: Check " ++
  ".claude/logs/compass-status for methodology progress when active."

/-- The `hookSpecificOutput` payload returned for prompt events. -/
structure PromptResponse where
  hookEventName : String
  additionalContext : String
deriving DecidableEq

/-- Function `create_compass_session_tracking`: create or refresh
`compass-session.json`, preserving `session_start` from an existing
parseable object record and refreshing `last_activity`. -/
def create_compass_session_tracking (now : Int) (fs : FS) : FS :=
  let session_start : Json := match fs.sessionFile with
    | some raw =>
      match raw.parsed with
      | some (.obj fields) => jsonGetD fields "session_start" (.str (isoStr now))
      | _ => .str (isoStr now)
    | none => .str (isoStr now)
  { fs with sessionFile := some (writeJsonFile (.obj
      [("session_start", session_start), ("last_activity", .str (isoStr now)),
       ("compass_activated", .bool true), ("version", .str "2.1")])) }

/-- Function `inject_compass_context()`: create the status-marker file
(`create_compass_status_file_with_tokens`), create/refresh the
session-tracking record, and return the coordination context under
`hookSpecificOutput`. -/
def inject_compass_context (now : Int) (fs : FS) : PromptResponse × FS :=
  let fs1 := { fs with statusFile := true }
  let fs2 := create_compass_session_tracking now fs1
  ({ hookEventName := "UserPromptSubmit", additionalContext := compassContextText }, fs2)

/-- Function `compass_handler_core(input, "UserPromptSubmit")` (the path behind
`handle_user_prompt_submit`): an empty prompt returns `None`, otherwise
the coordination context is injected unconditionally. -/
def handle_user_prompt_submit (now : Int) (fs : FS) (prompt : String) :
    Option PromptResponse × FS :=
  if prompt = "" then (none, fs)
  else
    let (r, fs2) := inject_compass_context now fs
    (some r, fs2)

/-- Function `trigger_upstream_validation`: prepares a Task request and reports
`valid=True` (its `except` arm is unreachable in the model). -/
structure UpstreamValidation where
  valid : Bool
  reason : String

/-- See `UpstreamValidation`. -/
def trigger_upstream_validation (_tool_name : String) (_tool_input : ToolInput) :
    UpstreamValidation :=
  { valid := true, reason := "Upstream validation handled by COMPASS agent system" }

/-- Message `create_enhanced_recursion_message("upstream_validator", ...)`
(operative lines). -/
def upstreamValidatorMessage : String :=
  "UPSTREAM VALIDATOR RECURSION PREVENTED: compass-upstream-validator " ++
  "called during validation chain. RECOMMENDED NEXT STEP: Proceed with " ++
  "original tool usage - upstream validation already in progress."

/-- Message `create_enhanced_recursion_message("depth_limit", ...)` (operative
lines). -/
def depthLimitWarning (validation_depth : Nat) : String :=
  "VALIDATION DEPTH LIMIT REACHED: Maximum validation depth (" ++
  toString validation_depth ++ ") exceeded. Maximum Depth Reached: " ++
  toString validation_depth ++ "/3. RECOMMENDED NEXT STEP: Proceed with " ++
  "tool usage - validation depth limit provides sufficient safety."

/-- The deny message used when a session is active (operative line). -/
def enforcementMessage (tool_name : String) : String :=
  "COMPASS ENFORCEMENT ACTIVE: Tool " ++ tool_name ++
  " requires COMPASS coordination during active session. REQUIRED ACTION: " ++
  "Use Task tool with subagent_type=compass-captain for proper tool coordination"

/-- Context fields consumed by the recursion messages.  Only
`session_active` comes from a fallible call; the remaining enrichment of
`get_compass_session_context` (token totals, duration, agents list)
happens inside its `try` block and never raises — in particular
`total_tokens` is the cleaned integer from `get_current_session_tokens`,
whose every error path yields the zero dict, so the `:,` format
specifier in the message templates cannot fail. -/
structure SessionContext where
  session_active : Bool
  validation_depth : Nat

/-- Function `get_compass_session_context`: the `session_active` field of
the returned dict is computed by a `compass_context_active()` call that
sits OUTSIDE the `try` block of the function, so the oracle exception
(C4) propagates out of it; `validation_depth` reads the depth variable
(modelled by the parameter, which the handler always writes as a valid
decimal). -/
def get_compass_session_context (now : Int) (fs : FS)
    (validation_depth : Nat) : Except PyErr SessionContext := do
  let active ← compass_context_active now fs
  return { session_active := active, validation_depth := validation_depth }

/-- Function `create_enhanced_recursion_message(recursion_type, ...)`:
fetches the session context first — propagating the oracle exception —
then renders the warning for the requested recursion type (texts are the
operative lines; the `compass_captain` variant is unreachable from the
handler core). -/
def create_enhanced_recursion_message (recursion_type : String) (now : Int)
    (fs : FS) (validation_depth : Nat) : Except PyErr String := do
  let _session_context ← get_compass_session_context now fs validation_depth
  if recursion_type = "upstream_validator" then
    return upstreamValidatorMessage
  else if recursion_type = "depth_limit" then
    return depthLimitWarning validation_depth
  else
    return "RECURSION PREVENTION ACTIVE: " ++ recursion_type

/-- Function `requires_compass_methodology`: universal routing, always `True`. -/
def requires_compass_methodology (_tool_name : String) (_tool_input : ToolInput) : Bool :=
  true

/-- A PreToolUse response: a permission decision (with its reason and
the attached coordination context, both produced by
`create_permission_decision_with_compass_context`, which itself runs
`inject_compass_context`), or the bare context injection used when no
session is active. -/
inductive PreDecision where
  | permission (decision : String) (reason : String) (context : String)
  | inject (r : PromptResponse)

/-- Accessor `PreDecision.decision`: the `permissionDecision` field when present. -/
def PreDecision.decisionStr : PreDecision → Option String
  | .permission d _ _ => some d
  | .inject _ => none

/-- Accessor `PreDecision.reasonStr`: the `permissionDecisionReason` field. -/
def PreDecision.reasonStr : PreDecision → Option String
  | .permission _ r _ => some r
  | .inject _ => none

/-- Result of one PreToolUse invocation: the response, the filesystem
afterwards, and the value the `COMPASS_VALIDATION_DEPTH` variable held
while `trigger_upstream_validation` ran (`none` when no nested
validation was performed). -/
structure PreResult where
  response : PreDecision
  fs : FS
  nestedDepth : Option Nat

/-- Function `create_permission_decision_with_compass_context(decision, reason)`:
runs `inject_compass_context` (creating the marker and session files) and
attaches the coordination context to the permission decision. -/
def create_permission_decision_with_compass_context (now : Int) (fs : FS)
    (decision reason : String) : PreDecision × FS :=
  let (r, fs2) := inject_compass_context now fs
  (.permission decision reason r.additionalContext, fs2)

/-- Function `compass_handler_core(input, "PreToolUse")`: the rule sequence of the
source — missing tool name, path safety, upstream-validator recursion
prevention, depth limiting at `COMPASS_VALIDATION_DEPTH >= 3`,
`double_check` upstream validation (incrementing the depth for the
duration of the nested call and always restoring it), then context
injection when no session is active, and universal enforcement denial
when one is.  The oracle exception propagates (it is caught only in
`main`): both from the explicit session check and from the
depth-limit / upstream-validator warning construction and the
enforcement denial, whose `create_enhanced_recursion_message` /
`get_compass_session_context` calls evaluate the oracle outside any
`try`. -/
def compass_handler_core_pretooluse (now : Int) (root : PyPath) (depth : Nat)
    (tool_name : String) (tool_input : ToolInput) (fs : FS) :
    Except PyErr PreResult := do
  if tool_name = "" then
    let (d, fs2) := create_permission_decision_with_compass_context now fs
      "deny" "No tool name provided"
    return { response := d, fs := fs2, nestedDepth := none }
  let safety := validate_file_operation_safety root tool_name tool_input
  if ¬ safety.safe then
    let (d, fs2) := create_permission_decision_with_compass_context now fs
      "deny" safety.reason
    return { response := d, fs := fs2, nestedDepth := none }
  if tool_name = "Task" ∧ tool_input.subagent_type = some "compass-upstream-validator" then
    let enhanced_message ← create_enhanced_recursion_message "upstream_validator" now fs depth
    let (d, fs2) := create_permission_decision_with_compass_context now fs
      "allow" enhanced_message
    return { response := d, fs := fs2, nestedDepth := none }
  if depth ≥ 3 then
    let enhanced_message ← create_enhanced_recursion_message "depth_limit" now fs depth
    let (d, fs2) := create_permission_decision_with_compass_context now fs
      "allow" enhanced_message
    return { response := d, fs := fs2, nestedDepth := none }
  let nested : Option Nat := if tool_input.double_check then some (depth + 1) else none
  if tool_input.double_check then
    let vr := trigger_upstream_validation tool_name tool_input
    if ¬ vr.valid then
      let (d, fs2) := create_permission_decision_with_compass_context now fs
        "deny" ("Upstream validation failed: " ++ vr.reason)
      return { response := d, fs := fs2, nestedDepth := nested }
  let active ← compass_context_active now fs
  if ¬ active then
    let (r, fs2) := inject_compass_context now fs
    return { response := .inject r, fs := fs2, nestedDepth := nested }
  if requires_compass_methodology tool_name tool_input then
    let _session_context ← get_compass_session_context now fs depth
    let (d, fs2) := create_permission_decision_with_compass_context now fs
      "deny" (enforcementMessage tool_name)
    return { response := d, fs := fs2, nestedDepth := nested }
  let (d, fs2) := create_permission_decision_with_compass_context now fs
    "allow" "COMPASS validation passed - tool allowed during active session"
  return { response := d, fs := fs2, nestedDepth := nested }

/-- The depth values the `COMPASS_VALIDATION_DEPTH` variable can reach
across any sequence of (possibly nested) PreToolUse invocations starting
from the initial depth 0: the initial value, and every value exported to
a nested validation call from a reachable value. -/
inductive ReachableDepth : Nat → Prop where
  | base : ReachableDepth 0
  | step (d d' : Nat) (now : Int) (root : PyPath) (tool_name : String)
      (tool_input : ToolInput) (fs : FS) (r : PreResult)
      (hd : ReachableDepth d)
      (hrun : compass_handler_core_pretooluse now root d tool_name tool_input fs = .ok r)
      (hnest : r.nestedDepth = some d') : ReachableDepth d'


/-! ## Theorems -/

/-- C10: for every absolute file path that does not lie under the project
root directory (the root components are not a prefix of the path
components), `validate_path_safety` returns `True`, so the root-directory
write guard never flags a path outside the project tree, wherever it
points. -/
theorem c10_outside_project_always_safe (root p : PyPath)
    (_hroot : root.absolute = true) (hp : p.absolute = true)
    (houts : ¬ root.parts.isPrefixOf p.parts = true) :
    validate_path_safety root p = true := by
  unfold validate_path_safety
  by_cases hsw : strStartsWith (pathStr p) (pathStr root) = true
  · have h2 : ¬ root.parts <+: p.parts := by
      intro hpre
      exact houts (by simpa [ List.isPrefixOf_iff_prefix] using hpre)
    simp [hp, hsw, h2]
  · simp [hp, eq_false_of_ne_true hsw]

/-- C10 witness: the absolute path `/tmp/x.md` outside the project root
`/home/proj` is reported safe. -/
theorem c10_outside_project_always_safe_witness :
    validate_path_safety ⟨true, ["home", "proj"]⟩ ⟨true, ["tmp", "x.md"]⟩ = true :=
  c10_outside_project_always_safe ⟨true, ["home", "proj"]⟩ ⟨true, ["tmp", "x.md"]⟩
    rfl rfl (by decide)

/-- C6: on a freshly initialised project directory (no status marker, no
session record, no log, no token file, no docs), the session oracle
returns `False` (and does not raise), at every model time. -/
theorem c6_fresh_project_inactive (now : Int) :
    compass_context_active now freshFS = .ok false := rfl

/-- C4 (code bug): the oracle is not exception-free.  With every other
signal absent and `compass-tokens.json` holding the parseable JSON text
`[]` (a corrupt signal file), `token_data.get("last_update", ...)` inside
`check_recent_compass_tokens` raises `AttributeError`, which its
`except (json.JSONDecodeError, FileNotFoundError)` clause does not catch,
and `compass_context_active` propagates the exception instead of treating
the corrupt file as an absent signal. -/
theorem c4_oracle_raises_on_corrupt_token_file :
    compass_context_active 1000 { tokenFile := some ⟨2, some (.arr [])⟩ } =
      .error .attributeError ∧
    check_recent_compass_tokens 1000 { tokenFile := some ⟨2, some (.arr [])⟩ } =
      .error .attributeError :=
  ⟨rfl, rfl⟩

/-- C5 counterexample: cleanup does not wait for ALL activity signals to
agree "inactive".  With the status marker present, no session record, and
a token ledger naming a `compass-` agent, the five-signal oracle reports
active both before and after the call, yet cleanup deletes the marker and
session files (its gate consults only the session-record signal). -/
def c5fs : FS :=
  { statusFile := true,
    tokenFile :=
      some ⟨40, some (.obj [("by_agent", .obj [("compass-captain", .num 5)])])⟩ }

theorem c5_counterexample_cleanup_while_active :
    (cleanup_compass_status_if_stale 0 c5fs).1 = true ∧
    (cleanup_compass_status_if_stale 0 c5fs).2.statusFile = false ∧
    (cleanup_compass_status_if_stale 0 c5fs).2.sessionFile = none ∧
    compass_context_active 0 c5fs = .ok true ∧
    compass_context_active 0 (cleanup_compass_status_if_stale 0 c5fs).2 = .ok true :=
  ⟨rfl, rfl, rfl, rfl, rfl⟩

/-- C5 amended: `cleanup_compass_status_if_stale` deletes the marker,
session record and lock files exactly when the marker exists and the
session-record signal (`check_compass_session_active`) alone reports
inactive — the other four signals are not consulted; the operation is
idempotent and total (it does not raise when the files are missing). -/
theorem c5_cleanup_gated_on_session_record (now : Int) (fs : FS) :
    cleanup_compass_status_if_stale now fs =
      (if fs.statusFile = true ∧ check_compass_session_active now fs = false
       then (true, { fs with statusFile := false, sessionFile := none,
                             statusLock := false, tokensLock := false })
       else (false, fs)) ∧
    (cleanup_compass_status_if_stale now
        (cleanup_compass_status_if_stale now fs).2).2 =
      (cleanup_compass_status_if_stale now fs).2 := by
  constructor
  · unfold cleanup_compass_status_if_stale
    by_cases hst : fs.statusFile = true
    · by_cases hact : check_compass_session_active now fs = true
      · simp [hst, hact]
      · simp [hst, hact, eq_false_of_ne_true hact]
    · simp [hst, eq_false_of_ne_true hst]
  · unfold cleanup_compass_status_if_stale
    by_cases hst : fs.statusFile = true
    · by_cases hact : check_compass_session_active now fs = true
      · simp [hst, hact]
      · simp [hst, hact]
    · simp [hst]

/-- C7: a `UserPromptSubmit` event with a non-empty prompt arriving when
no session is active yields the `hookSpecificOutput` response whose
`additionalContext` is the coordination-context text (which instructs
routing through `compass-captain`), and creates the status marker and the
session-tracking record. -/
theorem c7_prompt_injects_and_creates_files (now : Int) (fs : FS) (prompt : String)
    (hne : prompt ≠ "") (_hinactive : compass_context_active now fs = .ok false) :
    (handle_user_prompt_submit now fs prompt).1 =
      some { hookEventName := "UserPromptSubmit",
             additionalContext := compassContextText } ∧
    strContains compassContextText "compass-captain" = true ∧
    (handle_user_prompt_submit now fs prompt).2.statusFile = true ∧
    ((handle_user_prompt_submit now fs prompt).2.sessionFile).isSome = true := by
  unfold handle_user_prompt_submit inject_compass_context create_compass_session_tracking
  simp [hne]
  decide

/-- C7 witness: the prompt `hello` on a fresh project. -/
theorem c7_prompt_injects_and_creates_files_witness :
    (handle_user_prompt_submit 0 freshFS "hello").1 =
      some { hookEventName := "UserPromptSubmit",
             additionalContext := compassContextText } ∧
    strContains compassContextText "compass-captain" = true ∧
    (handle_user_prompt_submit 0 freshFS "hello").2.statusFile = true ∧
    ((handle_user_prompt_submit 0 freshFS "hello").2.sessionFile).isSome = true :=
  c7_prompt_injects_and_creates_files 0 freshFS "hello" (by decide) rfl


/-- C1 counterexample: the guard does not deny every root-directory
write.  For the file-creating tool `Write` targeting `notes.txt` — a path
that resolves to the project root (`validate_path_safety` reports it
unsafe) but does not end in `.md` — `validate_file_operation_safety`
reports `safe`, so the policy engine issues no deny for it. -/
theorem c1_counterexample_non_md_root_write_allowed :
    validate_path_safety ⟨true, ["home", "proj"]⟩ ⟨false, ["notes.txt"]⟩ = false ∧
    (validate_file_operation_safety ⟨true, ["home", "proj"]⟩ "Write"
      { file_path := some ⟨false, ["notes.txt"]⟩ }).safe = true :=
  ⟨rfl, rfl⟩

/-- C1 amended: for every file-creating or file-editing tool whose target
path resolves to the project root AND ends in `.md`, the safety check
returns unsafe with a reason that embeds a suggested redirect path
categorised as test, validation or documentation; `notes.md` is flagged
unsafe and `docs/notes.md` safe. -/
theorem c1_md_root_write_denied :
    (∀ (root : PyPath) (tool_name : String) (ti : ToolInput) (fp : PyPath),
      tool_name ∈ file_creating_tools →
      (if tool_name = "mcp__serena__create_text_file" then ti.relative_path
       else ti.file_path) = some fp →
      validate_path_safety root fp = false →
      strEndsWith (pathStr fp) ".md" = true →
      (validate_file_operation_safety root tool_name ti).safe = false ∧
      ∃ sp, (validate_file_operation_safety root tool_name ti).suggested_path = some sp ∧
        (validate_file_operation_safety root tool_name ti).reason = violationReason fp sp ∧
        ((validate_file_operation_safety root tool_name ti).file_type = some "test" ∨
         (validate_file_operation_safety root tool_name ti).file_type = some "validation" ∨
         (validate_file_operation_safety root tool_name ti).file_type = some "documentation")) ∧
    (∀ root : PyPath, validate_path_safety root ⟨false, ["notes.md"]⟩ = false) ∧
    (∀ root : PyPath, validate_path_safety root ⟨false, ["docs", "notes.md"]⟩ = true) := by
  refine ⟨?_, ?_, ?_⟩
  · intro root tool_name ti fp hmem hfp hunsafe hmd
    simp only [file_creating_tools, List.mem_cons, List.not_mem_nil, or_false] at hmem
    rcases hmem with h | h | h | h <;> subst h <;>
      [ (have hfp' : ti.file_path = some fp := by simpa using hfp);
        (have hfp' : ti.relative_path = some fp := by simpa using hfp);
        (have hfp' : ti.file_path = some fp := by simpa using hfp);
        (have hfp' : ti.file_path = some fp := by simpa using hfp)] <;>
      simp only [validate_file_operation_safety, file_creating_tools, List.mem_cons,
        String.reduceEq, List.not_mem_nil, or_false, or_true, true_or,
        not_true_eq_false, reduceIte, hfp', hunsafe, hmd, Bool.false_eq_true,
        not_false_eq_true, if_true] <;>
      split <;> (try split) <;>
      exact ⟨rfl, _, rfl, rfl, by simp⟩
  · intro root
    unfold validate_path_safety pathJoin
    simp [ List.isPrefixOf_iff_prefix, List.prefix_append]
  · intro root
    unfold validate_path_safety pathJoin
    simp [ List.isPrefixOf_iff_prefix, List.prefix_append]

/-- C1 witness: `Write` of `notes.md` at the root is denied as a
documentation redirect. -/
theorem c1_md_root_write_denied_witness :
    ((validate_file_operation_safety ⟨true, ["home", "proj"]⟩ "Write"
        { file_path := some ⟨false, ["notes.md"]⟩ }).safe = false ∧
      ∃ sp, (validate_file_operation_safety ⟨true, ["home", "proj"]⟩ "Write"
          { file_path := some ⟨false, ["notes.md"]⟩ }).suggested_path = some sp ∧
        (validate_file_operation_safety ⟨true, ["home", "proj"]⟩ "Write"
          { file_path := some ⟨false, ["notes.md"]⟩ }).reason =
            violationReason ⟨false, ["notes.md"]⟩ sp ∧
        ((validate_file_operation_safety ⟨true, ["home", "proj"]⟩ "Write"
            { file_path := some ⟨false, ["notes.md"]⟩ }).file_type = some "test" ∨
         (validate_file_operation_safety ⟨true, ["home", "proj"]⟩ "Write"
            { file_path := some ⟨false, ["notes.md"]⟩ }).file_type = some "validation" ∨
         (validate_file_operation_safety ⟨true, ["home", "proj"]⟩ "Write"
            { file_path := some ⟨false, ["notes.md"]⟩ }).file_type = some "documentation")) ∧
    validate_path_safety ⟨true, ["home", "proj"]⟩ ⟨false, ["notes.md"]⟩ = false ∧
    validate_path_safety ⟨true, ["home", "proj"]⟩ ⟨false, ["docs", "notes.md"]⟩ = true :=
  ⟨c1_md_root_write_denied.1 ⟨true, ["home", "proj"]⟩ "Write"
      { file_path := some ⟨false, ["notes.md"]⟩ } ⟨false, ["notes.md"]⟩
      (by decide) rfl (by decide) (by decide),
   c1_md_root_write_denied.2.1 ⟨true, ["home", "proj"]⟩,
   c1_md_root_write_denied.2.2 ⟨true, ["home", "proj"]⟩⟩


/-- Eviction only touches `by_agent`. -/
theorem cleanup_old_agents_total (td : TokenData) :
    (cleanup_old_agents_optimized td).total = td.total := by
  unfold cleanup_old_agents_optimized; split <;> rfl

/-- Eviction only touches `by_phase`. -/
theorem cleanup_old_phases_total (td : TokenData) :
    (cleanup_old_phases td).total = td.total := by
  unfold cleanup_old_phases; split <;> rfl


/-- C2 counterexample: `record_tokens` does not always increase `total`
by exactly the recorded count.  On the (not oversized) ledger
`{"total": -1}`, `validate_and_clean_token_data` clamps the stored total
with `max(0, ...)` before adding, so recording 10 tokens yields a stored
total of 10, not `-1 + 10 = 9`. -/
theorem c2_counterexample_negative_total :
    read_token_total
        (update_session_token_count 100 "compass-captain" 10
          { tokenFile := some ⟨12, some (.obj [("total", .num (-1))])⟩ }) = some 10 ∧
    read_token_total { tokenFile := some ⟨12, some (.obj [("total", .num (-1))])⟩ : FS }
      = some (-1) ∧
    some (10 : Int) ≠ some ((-1 : Int) + 10) := by
  refine ⟨rfl, rfl, by decide⟩

/-- C2 amended: for every ledger whose file is within the size cap and
parses to an object whose `total` is a nonnegative integer (and whose
default-separator re-serialisation is also within the cap),
`record_tokens` followed by a read yields `total` increased by exactly
the recorded count; when the on-disk ledger exceeded the cap at the start
of the call, the resulting ledger is reset to an empty ledger containing
only this entry (`total = count`, `by_agent = {agent: count}`). -/
theorem c2_record_tokens_total :
    (∀ (now : Int) (agent : String) (count : Int) (fs : FS) (raw : RawFile)
        (fields : List (String × Json)) (t : Int),
      fs.tokenFile = some raw →
      raw.parsed = some (.obj fields) →
      fields.lookup "total" = some (.num t) →
      0 ≤ t →
      raw.size ≤ MAX_TOKEN_FILE_SIZE →
      (serializeJsonDefault (.obj fields)).length ≤ MAX_TOKEN_FILE_SIZE →
      read_token_total (update_session_token_count now agent count fs) = some (t + count)) ∧
    (∀ (now : Int) (agent : String) (count : Int) (fs : FS) (raw : RawFile),
      fs.tokenFile = some raw →
      raw.size > MAX_TOKEN_FILE_SIZE →
      read_token_total (update_session_token_count now agent count fs) = some count ∧
      read_token_by_agent (update_session_token_count now agent count fs) =
        some [(agent, count)]) := by
  constructor
  · intro now agent count fs raw fields t htok hparse htotal ht hsize hdump
    unfold update_session_token_count
    rw [htok]
    dsimp only
    rw [if_neg (by omega : ¬ raw.size > MAX_TOKEN_FILE_SIZE)]
    dsimp only
    rw [htok]
    dsimp only
    unfold load_json_memory_safe
    rw [if_neg (by omega : ¬ raw.size > MAX_TOKEN_FILE_SIZE), hparse]
    dsimp only
    rw [if_neg (by omega : ¬ (serializeJsonDefault (Json.obj fields)).length > MAX_TOKEN_FILE_SIZE)]
    dsimp only
    unfold validate_and_clean_token_data jsonGetD
    dsimp only
    rw [htotal]
    dsimp only [Option.getD_some, pyIntOfJson, Bind.bind, Except.bind, pure, Except.pure]
    rw [max_eq_right ht]
    unfold read_token_total writeJsonFile tokenDataToJson
    rw [cleanup_old_phases_total, cleanup_old_agents_total]
    cases map_agent_to_phase agent <;> simp [List.lookup]
  · intro now agent count fs raw htok hbig
    unfold update_session_token_count
    rw [htok]
    dsimp only
    rw [if_pos hbig]
    unfold cleanup_token_file
    rw [if_pos hbig]
    dsimp only
    unfold load_json_memory_safe
    by_cases hs : (writeJsonFile (emergencyTokenJson now)).size > MAX_TOKEN_FILE_SIZE
    · rw [if_pos hs]
      dsimp only [create_empty_token_data]
      cases hph : map_agent_to_phase agent <;>
        simp [read_token_total, read_token_by_agent, writeJsonFile, tokenDataToJson,
          cleanup_old_agents_optimized, cleanup_old_phases, dictInsert, dictGetInt,
          topByValue, MAX_AGENT_TRACKING, MAX_PHASE_TRACKING, List.lookup, List.mapM, List.mapM.loop]
    · rw [if_neg hs]
      have hp : (writeJsonFile (emergencyTokenJson now)).parsed = some (emergencyTokenJson now) := rfl
      rw [hp]
      dsimp only
      by_cases hd : (serializeJsonDefault (emergencyTokenJson now)).length > MAX_TOKEN_FILE_SIZE
      · rw [if_pos hd]
        dsimp only [create_empty_token_data]
        cases hph : map_agent_to_phase agent <;>
          simp [read_token_total, read_token_by_agent, writeJsonFile, tokenDataToJson,
            cleanup_old_agents_optimized, cleanup_old_phases, dictInsert, dictGetInt,
            topByValue, MAX_AGENT_TRACKING, MAX_PHASE_TRACKING, List.lookup, List.mapM, List.mapM.loop]
      · rw [if_neg hd]
        dsimp only [emergencyTokenJson, validate_and_clean_token_data, jsonGetD]
        simp only [List.lookup, beq_self_eq_true, String.reduceBEq, reduceCtorEq, reduceIte,
          Option.getD_some]
        dsimp only [pyIntOfJson, Bind.bind, Except.bind, pure, Except.pure]
        cases hph : map_agent_to_phase agent <;>
          simp [read_token_total, read_token_by_agent, writeJsonFile, tokenDataToJson,
            cleanup_old_agents_optimized, cleanup_old_phases, dictInsert, dictGetInt,
            topByValue, MAX_AGENT_TRACKING, MAX_PHASE_TRACKING, List.lookup,
            List.filterMap, cleanMapEntry, List.mapM, List.mapM.loop]

/-- C2 witness: recording 10 tokens on a ledger holding total 5 yields
15; recording 10 on an oversized ledger resets to exactly this entry. -/
theorem c2_record_tokens_total_witness :
    read_token_total
        (update_session_token_count 100 "compass-captain" 10
          { tokenFile := some ⟨12, some (.obj [("total", .num 5)])⟩ }) = some 15 ∧
    read_token_total
        (update_session_token_count 100 "compass-captain" 10
          { tokenFile := some ⟨MAX_TOKEN_FILE_SIZE + 1, some (.obj [("total", .num 999)])⟩ })
      = some 10 :=
  ⟨c2_record_tokens_total.1 100 "compass-captain" 10
      { tokenFile := some ⟨12, some (.obj [("total", .num 5)])⟩ }
      ⟨12, some (.obj [("total", .num 5)])⟩ [("total", .num 5)] 5
      rfl rfl rfl (by decide) (by decide) (by decide),
   (c2_record_tokens_total.2 100 "compass-captain" 10
      { tokenFile := some ⟨MAX_TOKEN_FILE_SIZE + 1, some (.obj [("total", .num 999)])⟩ }
      ⟨MAX_TOKEN_FILE_SIZE + 1, some (.obj [("total", .num 999)])⟩
      rfl (by decide)).1⟩


/-- The only way a PreToolUse invocation exports a depth to a nested
validation call is the `double_check` path, which runs below the
depth-limit guard: the exported value is the current depth plus one, and
the current depth was below 3. -/
theorem nested_depth_characterisation (now : Int) (root : PyPath) (depth : Nat)
    (tool_name : String) (tool_input : ToolInput) (fs : FS) (r : PreResult) (d' : Nat)
    (hrun : compass_handler_core_pretooluse now root depth tool_name tool_input fs = .ok r)
    (hd : r.nestedDepth = some d') : d' = depth + 1 ∧ depth < 3 := by
  unfold compass_handler_core_pretooluse at hrun
  dsimp only at hrun
  by_cases h1 : tool_name = ""
  · rw [if_pos h1] at hrun
    cases hrun
    cases hd
  · rw [if_neg h1] at hrun
    by_cases h2 : (validate_file_operation_safety root tool_name tool_input).safe = true
    · rw [if_neg (by simp [h2])] at hrun
      by_cases h3 : tool_name = "Task" ∧ tool_input.subagent_type = some "compass-upstream-validator"
      · rw [if_pos h3] at hrun
        rcases hmsg : create_enhanced_recursion_message "upstream_validator" now fs depth
          with e | msg <;> rw [hmsg] at hrun <;>
          simp only [Bind.bind, Except.bind, pure, Except.pure] at hrun
        · cases hrun
        · cases hrun
          cases hd
      · rw [if_neg h3] at hrun
        by_cases h4 : depth ≥ 3
        · rw [if_pos h4] at hrun
          rcases hmsg : create_enhanced_recursion_message "depth_limit" now fs depth
            with e | msg <;> rw [hmsg] at hrun <;>
            simp only [Bind.bind, Except.bind, pure, Except.pure] at hrun
          · cases hrun
          · cases hrun
            cases hd
        · rw [if_neg h4] at hrun
          by_cases h5 : tool_input.double_check = true
          · simp only [h5, if_true, trigger_upstream_validation, not_true_eq_false,
              Bool.not_true, if_false, Bool.false_eq_true, not_false_eq_true,
              if_true, reduceIte] at hrun
            rcases hora : compass_context_active now fs with e | b <;> rw [hora] at hrun <;>
              simp only [Bind.bind, Except.bind] at hrun
            · cases hrun
            · by_cases h6 : b = true
              · subst h6
                simp only [Bool.not_true, Bool.false_eq_true, if_false,
                  requires_compass_methodology, if_true, reduceIte] at hrun
                have hctx : get_compass_session_context now fs depth =
                    .ok { session_active := true, validation_depth := depth } := by
                  unfold get_compass_session_context
                  rw [hora]
                  rfl
                rw [hctx] at hrun
                dsimp only at hrun
                cases hrun
                have hinj : some (depth + 1) = some d' := hd
                injection hinj with hinj2
                exact ⟨hinj2.symm, by omega⟩
              · have hb : b = false := by
                  cases b
                  · rfl
                  · exact absurd rfl h6
                subst hb
                rw [if_pos (by simp : ¬ (false = true))] at hrun
                cases hrun
                have hinj : some (depth + 1) = some d' := hd
                injection hinj with hinj2
                exact ⟨hinj2.symm, by omega⟩
          · have h5' : tool_input.double_check = false := by
              cases htmp : tool_input.double_check
              · rfl
              · exact absurd htmp h5
            simp only [h5', Bool.false_eq_true, if_false, reduceIte] at hrun
            rcases hora : compass_context_active now fs with e | b <;> rw [hora] at hrun <;>
              simp only [Bind.bind, Except.bind] at hrun
            · cases hrun
            · by_cases h6 : b = true
              · subst h6
                simp only [Bool.not_true, Bool.false_eq_true, if_false,
                  requires_compass_methodology, if_true, reduceIte] at hrun
                have hctx : get_compass_session_context now fs depth =
                    .ok { session_active := true, validation_depth := depth } := by
                  unfold get_compass_session_context
                  rw [hora]
                  rfl
                rw [hctx] at hrun
                dsimp only at hrun
                cases hrun
                cases hd
              · have hb : b = false := by
                  cases b
                  · rfl
                  · exact absurd rfl h6
                subst hb
                rw [if_pos (by simp : ¬ (false = true))] at hrun
                cases hrun
                cases hd
    · have h2' : (validate_file_operation_safety root tool_name tool_input).safe = false := by
        cases htmp : (validate_file_operation_safety root tool_name tool_input).safe
        · rfl
        · exact absurd htmp h2
      rw [if_pos (by simp [h2'])] at hrun
      cases hrun
      cases hd

/-- C3 counterexample: a nested `double_check` invocation arriving at
the depth limit is not always allowed through — the path-safety rule
runs first, so a `double_check=true` `Write` of `notes.md` at the
project root at depth 3 is denied, not allowed-with-warning. -/
theorem c3_counterexample_denied_at_depth_limit :
    (compass_handler_core_pretooluse 0 ⟨true, ["home", "proj"]⟩ 3 "Write"
        { file_path := some ⟨false, ["notes.md"]⟩, double_check := true } freshFS).map
      (fun r => (r.response.decisionStr, r.nestedDepth)) = .ok (some "deny", none) := rfl

/-- C3 amended: (1) across every sequence of tool invocations starting
at depth 0, the validation-depth counter stays bounded by 3; (2) an
invocation arriving at depth >= 3 that passes the earlier rules (a tool
name is present, path safety passes, it is not the upstream-validator
special case) and whose run completes normally is allowed through with
the depth-limit warning and performs no nested validation call; (3) an
upstream-validator invocation whose run completes normally is allowed
through with its recursion warning and no nesting; (4) the allow is not
unconditional: building the warning message consults the session oracle
outside any handler, so when the oracle raises (e.g. on a corrupt token
file), a depth >= 3 invocation that passes the earlier rules propagates
the exception instead of being allowed. -/
theorem c3_depth_bounded_and_fail_open :
    (∀ d, ReachableDepth d → d ≤ 3) ∧
    (∀ (now : Int) (root : PyPath) (depth : Nat) (tool_name : String)
        (ti : ToolInput) (fs : FS) (r : PreResult),
      compass_handler_core_pretooluse now root depth tool_name ti fs = .ok r →
      3 ≤ depth → tool_name ≠ "" →
      (validate_file_operation_safety root tool_name ti).safe = true →
      ¬ (tool_name = "Task" ∧ ti.subagent_type = some "compass-upstream-validator") →
      r.response.decisionStr = some "allow" ∧
      r.response.reasonStr = some (depthLimitWarning depth) ∧
      r.nestedDepth = none) ∧
    (∀ (now : Int) (root : PyPath) (depth : Nat) (ti : ToolInput) (fs : FS) (r : PreResult),
      compass_handler_core_pretooluse now root depth "Task" ti fs = .ok r →
      ti.subagent_type = some "compass-upstream-validator" →
      r.response.decisionStr = some "allow" ∧
      r.response.reasonStr = some upstreamValidatorMessage ∧
      r.nestedDepth = none) ∧
    (∀ (now : Int) (root : PyPath) (depth : Nat) (tool_name : String)
        (ti : ToolInput) (fs : FS) (e : PyErr),
      3 ≤ depth → tool_name ≠ "" →
      (validate_file_operation_safety root tool_name ti).safe = true →
      ¬ (tool_name = "Task" ∧ ti.subagent_type = some "compass-upstream-validator") →
      compass_context_active now fs = .error e →
      compass_handler_core_pretooluse now root depth tool_name ti fs = .error e) := by
  refine ⟨?_, ?_, ?_, ?_⟩
  · intro d h
    induction h with
    | base => omega
    | step d d' now root tn ti fs r hd hrun hnest ih =>
      obtain ⟨he, _⟩ := nested_depth_characterisation now root d tn ti fs r d' hrun hnest
      omega
  · intro now root depth tool_name ti fs r hrun hdep hne hsafe hnot
    unfold compass_handler_core_pretooluse at hrun
    dsimp only at hrun
    rw [if_neg hne, if_neg (by simp [hsafe]), if_neg hnot, if_pos hdep] at hrun
    rcases hora : compass_context_active now fs with e | b
    · have hmsg : create_enhanced_recursion_message "depth_limit" now fs depth =
          .error e := by
        unfold create_enhanced_recursion_message get_compass_session_context
        rw [hora]
        rfl
      rw [hmsg] at hrun
      simp only [Bind.bind, Except.bind] at hrun
      cases hrun
    · have hmsg : create_enhanced_recursion_message "depth_limit" now fs depth =
          .ok (depthLimitWarning depth) := by
        unfold create_enhanced_recursion_message get_compass_session_context
        rw [hora]
        rfl
      rw [hmsg] at hrun
      simp only [Bind.bind, Except.bind, pure, Except.pure] at hrun
      cases hrun
      exact ⟨rfl, rfl, rfl⟩
  · intro now root depth ti fs r hrun hsub
    have hsafe : validate_file_operation_safety root "Task" ti =
        { safe := true, reason := "Tool does not create files" } := by
      unfold validate_file_operation_safety
      rw [if_pos (by decide)]
    unfold compass_handler_core_pretooluse at hrun
    dsimp only at hrun
    rw [if_neg (by decide : ¬ ("Task" = "")), if_neg (by simp [hsafe]),
      if_pos ⟨rfl, hsub⟩] at hrun
    rcases hora : compass_context_active now fs with e | b
    · have hmsg : create_enhanced_recursion_message "upstream_validator" now fs depth =
          .error e := by
        unfold create_enhanced_recursion_message get_compass_session_context
        rw [hora]
        rfl
      rw [hmsg] at hrun
      simp only [Bind.bind, Except.bind] at hrun
      cases hrun
    · have hmsg : create_enhanced_recursion_message "upstream_validator" now fs depth =
          .ok upstreamValidatorMessage := by
        unfold create_enhanced_recursion_message get_compass_session_context
        rw [hora]
        rfl
      rw [hmsg] at hrun
      simp only [Bind.bind, Except.bind, pure, Except.pure] at hrun
      cases hrun
      exact ⟨rfl, rfl, rfl⟩
  · intro now root depth tool_name ti fs e hdep hne hsafe hnot hora
    unfold compass_handler_core_pretooluse
    dsimp only
    rw [if_neg hne, if_neg (by simp [hsafe]), if_neg hnot, if_pos hdep]
    have hmsg : create_enhanced_recursion_message "depth_limit" now fs depth =
        .error e := by
      unfold create_enhanced_recursion_message get_compass_session_context
      rw [hora]
      rfl
    rw [hmsg]
    rfl

/-- C3 witness: depth 0 is reachable and bounded; a `double_check` Bash
call at depth 3 on a fresh state is allowed with the warning and does
not nest, while the same call on a state whose token file holds the
JSON array text propagates the AttributeError. -/
theorem c3_depth_bounded_and_fail_open_witness :
    ((0 : Nat) ≤ 3 ∧
    ∃ r, compass_handler_core_pretooluse 0 ⟨true, ["home", "proj"]⟩ 3 "Bash"
        { double_check := true } freshFS = .ok r ∧
      r.response.decisionStr = some "allow" ∧
      r.response.reasonStr = some (depthLimitWarning 3) ∧
      r.nestedDepth = none) ∧
    compass_handler_core_pretooluse 0 ⟨true, ["home", "proj"]⟩ 3 "Bash"
        { double_check := true } { tokenFile := some ⟨2, some (.arr [])⟩ } =
      .error .attributeError := by
  refine ⟨⟨c3_depth_bounded_and_fail_open.1 0 ReachableDepth.base, _, rfl, ?_⟩, ?_⟩
  · exact c3_depth_bounded_and_fail_open.2.1 0 ⟨true, ["home", "proj"]⟩ 3 "Bash"
      { double_check := true } freshFS _ rfl (by omega) (by decide) rfl (by simp)
  · exact c3_depth_bounded_and_fail_open.2.2.2 0 ⟨true, ["home", "proj"]⟩ 3 "Bash"
      { double_check := true } { tokenFile := some ⟨2, some (.arr [])⟩ } .attributeError
      (by omega) (by decide) rfl (by simp) rfl


/-- Function `bitLenAux` computes the bit length: at most `k` bits iff below
`2 ^ k`. -/
theorem bitLenAux_le_iff : ∀ (fuel n k : Nat), n < fuel →
    (bitLenAux fuel n ≤ k ↔ n < 2 ^ k) := by
  intro fuel
  induction fuel with
  | zero => intro n k hf; exact absurd hf (Nat.not_lt_zero n)
  | succ fuel ih =>
    intro n k hf
    simp only [bitLenAux]
    by_cases h0 : n = 0
    · simp [h0, Nat.pos_pow_of_pos, Nat.two_pow_pos]
    · rw [if_neg h0]
      cases k with
      | zero =>
        rw [pow_zero]
        omega
      | succ k =>
        have hrec : n / 2 < fuel := by omega
        have hiff := ih (n / 2) k hrec
        constructor
        · intro h
          have h3 : n / 2 < 2 ^ k := hiff.mp (by omega)
          rw [pow_succ]
          omega
        · intro h
          have h3 : n / 2 < 2 ^ k := by
            rw [pow_succ] at h
            omega
          have := hiff.mpr h3
          omega

/-- Mantissas below `2 ^ 53` are exactly representable: rounding is the
identity. -/
theorem roundF_small (m : Nat) (e : Int) (h : m < 2 ^ 53) : roundF m e = ⟨m, e⟩ := by
  unfold roundF bitLength
  dsimp only
  rw [if_pos ((bitLenAux_le_iff (m + 1) m 53 (by omega)).mpr h)]

/-- Conversion `float(n)` is exact below `2 ^ 53`. -/
theorem pyFloat_small (n : Nat) (h : n < 2 ^ 53) : pyFloat n = ⟨n, 0⟩ :=
  roundF_small n 0 h

/-- Multiplying a small integer float by `1.0` is exact. -/
theorem fmul_one_small (n : Nat) (h : n < 2 ^ 53) : fmul ⟨n, 0⟩ float_1_0 = ⟨n, 0⟩ := by
  unfold fmul float_1_0
  simp only [mul_one, add_zero]
  exact roundF_small n 0 h

/-- Adding two small integer floats is exact. -/
theorem fadd_small (a b : Nat) (h : a + b < 2 ^ 53) :
    fadd ⟨a, 0⟩ ⟨b, 0⟩ = ⟨a + b, 0⟩ := by
  unfold fadd falignedParts
  simp only [min_self, sub_self, Int.toNat_zero, pow_zero, mul_one]
  exact roundF_small (a + b) 0 h

/-- Truncation `int()` of an integer float. -/
theorem ffloor_nat (n : Nat) : ffloor ⟨n, 0⟩ = n := by
  unfold ffloor
  simp

/-- C8 counterexample: the estimator does not return the exact integer
truncation of the claim formula.  For operation name `Code` (multiplier
1.4) and a 180-character content, `base_tokens = 45` and the exact
formula gives `int(45 * 1.4) = int(63.0) = 63`, but the code computes in
binary64, where `45 * 1.4 = 62.99999999999999...`, and returns 62. -/
theorem c8_counterexample_float_truncation :
    estimate_agent_tokens "Code" content180 none = 62 ∧
    estimateClaimExact "Code" content180 none = 63 ∧
    estimate_agent_tokens "Code" content180 none ≠
      estimateClaimExact "Code" content180 none := by
  have h1 : estimate_agent_tokens "Code" content180 none = 62 := by
    set_option maxRecDepth 10000 in decide
  have h2 : estimateClaimExact "Code" content180 none = 63 := by
    have hlen : content180.length = 180 := by set_option maxRecDepth 10000 in decide
    have hne : content180 ≠ "" := by
      intro h
      rw [h] at hlen
      simp at hlen
    have hlk : claim_multipliers.lookup "Code" = some (14/10) := rfl
    unfold estimateClaimExact
    rw [if_neg hne, hlen, hlk]
    dsimp only
    rw [if_neg (by decide : ¬ strStartsWith "Code" "compass-" = true)]
    norm_num
  refine ⟨h1, h2, ?_⟩
  rw [h1, h2]
  decide

/-- C8 amended: the estimator is a pure function of its three arguments;
empty content yields 0; and the claim formula holds with the arithmetic
performed in binary64 (as the source does), which at certain sizes
truncates one below the exact value.  For operation names outside the
multiplier table (multiplier 1.0) without the `compass-` prefix, and
inputs within the handler 512KB bound, the binary64 evaluation is exact
and the claim formula holds as written. -/
theorem c8_estimate_tokens_formula :
    (∀ (a : String) (t : Option String), estimate_agent_tokens a "" t = 0) ∧
    (∀ (a c : String) (t : Option String),
      agent_multipliers.lookup a = none →
      claim_multipliers.lookup a = none →
      strStartsWith a "compass-" = false →
      c ≠ "" →
      c.length ≤ MAX_INPUT_SIZE →
      (∀ s ∈ t, s.length ≤ MAX_INPUT_SIZE) →
      estimate_agent_tokens a c t = estimateClaimExact a c t) := by
  constructor
  · intro a t
    rfl
  · intro a c t hma hmc hcomp hne hc hts
    have hbase : c.length / 4 < 2 ^ 53 := by
      have := Nat.div_le_self c.length 4
      simp only [MAX_INPUT_SIZE] at hc
      omega
    unfold estimate_agent_tokens estimateClaimExact
    rw [if_neg hne, if_neg hne, hma, hmc]
    dsimp only
    rw [if_neg (by simp [hcomp]), if_neg (by simp [hcomp])]
    rw [Option.getD_none, Option.getD_none]
    rw [pyFloat_small _ hbase, fmul_one_small _ hbase]
    cases t with
    | none =>
      dsimp only
      rw [ffloor_nat]
      rw [mul_one, add_zero, add_zero]
      exact (Int.floor_natCast _).symm
    | some s =>
      have hs : s.length ≤ MAX_INPUT_SIZE := hts s rfl
      have had : s.length / 10 < 2 ^ 53 := by
        have := Nat.div_le_self s.length 10
        simp only [MAX_INPUT_SIZE] at hs
        omega
      have hsum : c.length / 4 + s.length / 10 < 2 ^ 53 := by
        have h1 := Nat.div_le_self c.length 4
        have h2 := Nat.div_le_self s.length 10
        simp only [MAX_INPUT_SIZE] at hc hs
        omega
      dsimp only
      rw [pyFloat_small _ had, fadd_small _ _ hsum, ffloor_nat]
      rw [mul_one, add_zero, ← Nat.cast_add]
      exact (Int.floor_natCast _).symm

/-- C8 witness: empty content estimates 0; an unknown operation name on
100 characters of content with a 57-character extra input estimates
`100 div 4 + 57 div 10 = 30` under both the code and the claim formula. -/
theorem c8_estimate_tokens_formula_witness :
    estimate_agent_tokens "unknown" "" none = 0 ∧
    estimate_agent_tokens "unknown" (String.mk (List.replicate 100 'a'))
        (some (String.mk (List.replicate 57 'b'))) =
      estimateClaimExact "unknown" (String.mk (List.replicate 100 'a'))
        (some (String.mk (List.replicate 57 'b'))) ∧
    estimate_agent_tokens "unknown" (String.mk (List.replicate 100 'a'))
        (some (String.mk (List.replicate 57 'b'))) = 30 := by
  refine ⟨c8_estimate_tokens_formula.1 "unknown" none, ?_, ?_⟩
  · exact c8_estimate_tokens_formula.2 "unknown" _ _ rfl rfl rfl
      (by set_option maxRecDepth 4000 in decide)
      (by set_option maxRecDepth 4000 in decide)
      (by
        intro s hs
        simp only [Option.mem_def, Option.some.injEq] at hs
        subst hs
        set_option maxRecDepth 4000 in decide)
  · set_option maxRecDepth 4000 in decide


set_option maxRecDepth 8000

/-- Serialised size of a well-formed log entry (below the 10KB
`secure_json_dumps` bound). -/
theorem serialize_mkLogEntry_le (now : Int) (action details : String)
    (hts : (isoStr now).length ≤ 26) (ha : action.length ≤ 100) (hd : details.length ≤ 1000) :
    (serializeJson (.obj (mkLogEntry now action details))).length ≤ 10240 := by
  have l1 : "\x7b".length = 1 := rfl
  have l2 : "\"timestamp\":".length = 12 := rfl
  have l3 : "\"".length = 1 := rfl
  have l4 : ",".length = 1 := rfl
  have l5 : "\"action\":".length = 9 := rfl
  have l6 : "\"details\":".length = 10 := rfl
  have l7 : "\"handler\":\"compass-handler\",\"version\":\"2.1\"".length = 43 := rfl
  have l8 : "\x7d".length = 1 := rfl
  simp [serializeJson, serializeObj, mkLogEntry, String.length_append]
  omega

/-- Serialised size of the sanitized entry. -/
theorem serialize_sanitized_le (now : Int) (action : String)
    (hts : (isoStr now).length ≤ 26) :
    (serializeJson (.obj (sanitizedLogEntry now action))).length ≤ 10240 := by
  have htake : (strTake action 50).length ≤ 50 := by
    show (action.data.take 50).length ≤ 50
    simp [List.length_take]
  have l1 : "\x7b".length = 1 := rfl
  have l2 : "\"timestamp\":".length = 12 := rfl
  have l3 : "\"".length = 1 := rfl
  have l4 : ",".length = 1 := rfl
  have l5 : "\"action\":\"validation_failed\",".length = 29 := rfl
  have l6 : "\"details\":".length = 10 := rfl
  have l7 : "Invalid log entry format for action: ".length = 37 := rfl
  have l8 : "\"handler\":\"compass-handler\",\"version\":\"2.1\"".length = 43 := rfl
  have l9 : "\x7d".length = 1 := rfl
  simp [serializeJson, serializeObj, sanitizedLogEntry, String.length_append]
  omega

/-- Schema validation of a constructed entry forces the two length
bounds. -/
theorem validate_mkLogEntry_bounds (now : Int) (action details : String)
    (hv : validate_log_entry_schema (mkLogEntry now action details) = true) :
    action.length ≤ 100 ∧ details.length ≤ 1000 := by
  unfold validate_log_entry_schema mkLogEntry at hv
  simp [pyStr, List.lookup] at hv
  omega

/-- Logging touches only the log files: every fault configuration leaves
the rest of the filesystem unchanged (and the function is total — no
exception escapes). -/
theorem log_handler_activity_frame (faults : LogFaults) (now : Int)
    (action details : String) (fs : FS) :
    ∃ l1 l2, log_handler_activity faults now action details fs =
      { fs with logFile := l1, logOld := l2 } := by
  unfold log_handler_activity rotate_log_file
  repeat' split
  all_goals exact ⟨_, _, rfl⟩


/-- C9: `log_handler_activity` (a) touches only the log files, for every
fault configuration — every I/O failure is swallowed and nothing else of
the filesystem changes; (b) in the non-rotating case it appends exactly
one JSON line carrying the fixed five-field schema, substituting the
sanitized entry exactly when schema validation fails; (c) once the log
exceeds `MAX_LOG_SIZE` it is rotated: the old log is moved to the `.old`
backup and a fresh log is started with the rotation marker followed by
the entry. -/
theorem c9_log_handler_activity_spec :
    (∀ (faults : LogFaults) (now : Int) (action details : String) (fs : FS),
      (log_handler_activity faults now action details fs).statusFile = fs.statusFile ∧
      (log_handler_activity faults now action details fs).sessionFile = fs.sessionFile ∧
      (log_handler_activity faults now action details fs).tokenFile = fs.tokenFile) ∧
    (∀ (now : Int) (action details : String) (fs : FS),
      (isoStr now).length ≤ 26 →
      (fs.logFile = none ∨ ∃ lf, fs.logFile = some lf ∧ lf.size ≤ MAX_LOG_SIZE) →
      ∃ lf2 flds,
        (log_handler_activity {} now action details fs).logFile = some lf2 ∧
        lf2.lines = (match fs.logFile with | none => [] | some lf => lf.lines)
          ++ [some (.obj flds)] ∧
        flds.map Prod.fst = ["timestamp", "action", "details", "handler", "version"] ∧
        (validate_log_entry_schema (mkLogEntry now action details) = false →
          flds = sanitizedLogEntry now action)) ∧
    (∀ (now : Int) (action details : String) (fs : FS) (lf : LogFile),
      (isoStr now).length ≤ 26 →
      fs.logFile = some lf → lf.size > MAX_LOG_SIZE →
      ∃ lf2 flds,
        (log_handler_activity {} now action details fs).logFile = some lf2 ∧
        (log_handler_activity {} now action details fs).logOld = some lf ∧
        lf2.lines = [some (rotatedLine now), some (.obj flds)] ∧
        flds.map Prod.fst = ["timestamp", "action", "details", "handler", "version"]) := by
  refine ⟨?_, ?_, ?_⟩
  · intro faults now action details fs
    obtain ⟨l1, l2, h⟩ := log_handler_activity_frame faults now action details fs
    rw [h]
    exact ⟨rfl, rfl, rfl⟩
  · intro now action details fs hts hsize
    unfold log_handler_activity
    dsimp only
    have hfs1 : (match fs.logFile with
        | some lf => if lf.size > MAX_LOG_SIZE then rotate_log_file {} now fs else fs
        | none => fs) = fs := by
      rcases hsize with h | ⟨lf, hlf, hle⟩
      · rw [h]
      · rw [hlf]
        dsimp only
        rw [if_neg (Nat.not_lt.mpr hle)]
    rw [hfs1]
    by_cases hv : validate_log_entry_schema (mkLogEntry now action details) = true
    · rw [if_pos hv]
      obtain ⟨ha, hd⟩ := validate_mkLogEntry_bounds now action details hv
      rw [if_pos (serialize_mkLogEntry_le now action details hts ha hd)]
      refine ⟨_, mkLogEntry now action details, rfl, ?_, rfl, ?_⟩
      · cases hfs : fs.logFile <;> simp [appendEntry, lineFile]
      · intro hcontra
        rw [hv] at hcontra
        cases hcontra
    · rw [if_neg hv]
      rw [if_pos (serialize_sanitized_le now action hts)]
      refine ⟨_, sanitizedLogEntry now action, rfl, ?_, rfl, fun _ => rfl⟩
      cases hfs : fs.logFile <;> simp [appendEntry, lineFile]
  · intro now action details fs lf hts hlf hbig
    unfold log_handler_activity rotate_log_file
    dsimp only
    rw [hlf]
    dsimp only
    rw [if_pos hbig]
    simp only [Bool.false_and, Bool.false_or, Bool.false_eq_true, if_false]
    by_cases hv : validate_log_entry_schema (mkLogEntry now action details) = true
    · rw [if_pos hv]
      obtain ⟨ha, hd⟩ := validate_mkLogEntry_bounds now action details hv
      rw [if_pos (serialize_mkLogEntry_le now action details hts ha hd)]
      refine ⟨_, mkLogEntry now action details, rfl, ?_, ?_, ?_⟩ <;>
        first
          | rfl
          | simp [appendEntry, lineFile]
    · rw [if_neg hv]
      rw [if_pos (serialize_sanitized_le now action hts)]
      refine ⟨_, sanitizedLogEntry now action, rfl, ?_, ?_, ?_⟩ <;>
        first
          | rfl
          | simp [appendEntry, lineFile]

/-- C9 witness: logging on a fresh project leaves the non-log state
untouched and produces a one-line log with the five-field schema. -/
theorem c9_log_handler_activity_spec_witness :
    (log_handler_activity {} 5 "tool_intercept" "Intercepted: Write" freshFS).statusFile
      = freshFS.statusFile ∧
    ((log_handler_activity {} 5 "tool_intercept" "Intercepted: Write" freshFS).logFile.map
      (fun lf => lf.lines.length)) = some 1 := by
  have happ := c9_log_handler_activity_spec.2.1 5 "tool_intercept" "Intercepted: Write"
    freshFS (by decide) (Or.inl rfl)
  exact ⟨(c9_log_handler_activity_spec.1 {} 5 "tool_intercept" "Intercepted: Write" freshFS).1,
    rfl⟩

end Compass
